import Mathlib

/-!
Verification of the publish-configuration repository (`src/brc.py`).

The source is a Python module that binds three top-level constants
(`service`, `service_options`, `handlers`) to nested literal values.
We embed those literals as a small Python-value datatype, and model the
loader, validator and serializer that the specification describes for an
external consumer of this configuration.
-/

namespace Brc

/-- Python-style literal values, covering exactly the shapes that occur in
`src/brc.py`: strings, integers, booleans, lists, tuples and dictionaries
with string keys. -/
inductive PyVal where
  | str (s : String)
  | int (n : Int)
  | bool (b : Bool)
  | list (xs : List PyVal)
  | tuple (xs : List PyVal)
  | dict (entries : List (String × PyVal))

/-- `service = "blogger"` from `src/brc.py`. -/
def service : PyVal := .str "blogger"

/-- `service_options = { "blog": 6425054342484936402 }` from `src/brc.py`. -/
def service_options : PyVal := .dict [("blog", .int 6425054342484936402)]

/-- The `handlers` literal from `src/brc.py`, embedded entry by entry in
source order. -/
def handlers : PyVal := .dict [
  ("Markdown", .dict [
    ("options", .dict [
      ("embed_images", .bool true),
      ("config", .dict [
        ("extensions", .list [.str "codehilite", .str "footnotes",
                              .str "tables", .str "toc"]),
        ("extension_configs", .dict [
          ("codehilite", .list [.tuple [.str "noclasses", .str "True"]])])])])])]

/-- The whole configuration record of `src/brc.py`: its three top-level
bindings gathered as one dictionary, in source order. -/
def brcRecord : PyVal :=
  .dict [("service", service),
         ("service_options", service_options),
         ("handlers", handlers)]

/-- Modelled from the spec: the first file variant of `brc.py`, which the
spec describes as identical to the file under `src/` except that the
`embed_images` key is absent. The first-variant file itself is not under
`src/`. -/
def brcRecordV1 : PyVal :=
  .dict [("service", .str "blogger"),
         ("service_options", .dict [("blog", .int 6425054342484936402)]),
         ("handlers", .dict [
           ("Markdown", .dict [
             ("options", .dict [
               ("config", .dict [
                 ("extensions", .list [.str "codehilite", .str "footnotes",
                                       .str "tables", .str "toc"]),
                 ("extension_configs", .dict [
                   ("codehilite",
                    .list [.tuple [.str "noclasses", .str "True"]])])])])])])]

/-- Modelled from the spec: the single load-time validation error kind,
`ConfigValidationError`. No loader exists in the repository source. -/
inductive ConfigError where
  | ConfigValidationError
deriving Repr, DecidableEq

/-- Modelled from the spec schema: `service_options: \x7b blog: integer \x7d`. -/
structure ServiceOptions where
  blog : Int
deriving Repr, DecidableEq

/-- Modelled from the spec schema: the `config` sub-record of a handler,
with the enabled extension names and the per-extension settings given as
lists of name/value pairs. -/
structure MarkdownConfig where
  extensions : List String
  extension_configs : List (String × List (String × String))
deriving Repr, DecidableEq

/-- Modelled from the spec schema: a handler options record, whose
`embed_images` flag is optional (absent is a distinct unset state). -/
structure HandlerOptions where
  embed_images : Option Bool
  config : MarkdownConfig
deriving Repr, DecidableEq

/-- Modelled from the spec schema: a handler record holding its options. -/
structure Handler where
  options : HandlerOptions
deriving Repr, DecidableEq

/-- Modelled from the spec schema: the Publish Configuration record with
its three top-level fields. -/
structure PublishConfig where
  service : String
  service_options : ServiceOptions
  handlers : List (String × Handler)
deriving Repr, DecidableEq

/-- First-match lookup of a string key in an association list, the way a
dictionary is consulted. -/
def lookup {α : Type} : List (String × α) → String → Option α
  | [], _ => none
  | (k, v) :: rest, key => if k = key then some v else lookup rest key

/-- Modelled from the spec: parse a string field; any other shape is a
validation failure. -/
def parseString : PyVal → Except ConfigError String
  | .str s => .ok s
  | _ => .error .ConfigValidationError

/-- Modelled from the spec: parse an integer field. -/
def parseInt : PyVal → Except ConfigError Int
  | .int n => .ok n
  | _ => .error .ConfigValidationError

/-- Modelled from the spec: parse a boolean field. -/
def parseBool : PyVal → Except ConfigError Bool
  | .bool b => .ok b
  | _ => .error .ConfigValidationError

/-- Modelled from the spec: parse each element of a list of strings. -/
def parseStrings : List PyVal → Except ConfigError (List String)
  | [] => .ok []
  | v :: vs =>
    match parseString v with
    | .error e => .error e
    | .ok s =>
      match parseStrings vs with
      | .error e => .error e
      | .ok rest => .ok (s :: rest)

/-- Modelled from the spec: parse the `extensions` field, a list of
extension names. -/
def parseStringList : PyVal → Except ConfigError (List String)
  | .list xs => parseStrings xs
  | _ => .error .ConfigValidationError

/-- Modelled from the spec: parse one name/value settings pair, which in
the source literal is a two-element tuple of strings. -/
def parsePair : PyVal → Except ConfigError (String × String)
  | .tuple [.str a, .str b] => .ok (a, b)
  | _ => .error .ConfigValidationError

/-- Modelled from the spec: parse each settings pair of one extension. -/
def parsePairs : List PyVal → Except ConfigError (List (String × String))
  | [] => .ok []
  | v :: vs =>
    match parsePair v with
    | .error e => .error e
    | .ok p =>
      match parsePairs vs with
      | .error e => .error e
      | .ok rest => .ok (p :: rest)

/-- Modelled from the spec: parse the settings list of one extension. -/
def parsePairList : PyVal → Except ConfigError (List (String × String))
  | .list xs => parsePairs xs
  | _ => .error .ConfigValidationError

/-- Modelled from the spec: parse the entries of `extension_configs`,
keeping dictionary order. -/
def parseExtConfigEntries :
    List (String × PyVal) →
    Except ConfigError (List (String × List (String × String)))
  | [] => .ok []
  | (k, v) :: rest =>
    match parsePairList v with
    | .error e => .error e
    | .ok ps =>
      match parseExtConfigEntries rest with
      | .error e => .error e
      | .ok tail => .ok ((k, ps) :: tail)

/-- Modelled from the spec: parse the `extension_configs` dictionary. -/
def parseExtensionConfigs :
    PyVal → Except ConfigError (List (String × List (String × String)))
  | .dict entries => parseExtConfigEntries entries
  | _ => .error .ConfigValidationError

/-- Modelled from the spec: parse the `config` sub-record, requiring both
the `extensions` and the `extension_configs` fields. -/
def parseMarkdownConfig : PyVal → Except ConfigError MarkdownConfig
  | .dict entries =>
    match lookup entries "extensions" with
    | none => .error .ConfigValidationError
    | some ev =>
      match parseStringList ev with
      | .error e => .error e
      | .ok exts =>
        match lookup entries "extension_configs" with
        | none => .error .ConfigValidationError
        | some cv =>
          match parseExtensionConfigs cv with
          | .error e => .error e
          | .ok ecs => .ok ⟨exts, ecs⟩
  | _ => .error .ConfigValidationError

/-- Modelled from the spec: finish parsing a handler options record once
the optional `embed_images` flag has been settled, requiring `config`. -/
def parseConfigField (entries : List (String × PyVal)) (ei : Option Bool) :
    Except ConfigError HandlerOptions :=
  match lookup entries "config" with
  | none => .error .ConfigValidationError
  | some cv =>
    match parseMarkdownConfig cv with
    | .error e => .error e
    | .ok cfg => .ok ⟨ei, cfg⟩

/-- Modelled from the spec: parse a handler options record; a missing
`embed_images` key yields the distinct unset state, never a default. -/
def parseHandlerOptions : PyVal → Except ConfigError HandlerOptions
  | .dict entries =>
    match lookup entries "embed_images" with
    | none => parseConfigField entries none
    | some ev =>
      match parseBool ev with
      | .error e => .error e
      | .ok b => parseConfigField entries (some b)
  | _ => .error .ConfigValidationError

/-- Modelled from the spec: parse one handler record, requiring its
`options` field. -/
def parseHandler : PyVal → Except ConfigError Handler
  | .dict entries =>
    match lookup entries "options" with
    | none => .error .ConfigValidationError
    | some ov =>
      match parseHandlerOptions ov with
      | .error e => .error e
      | .ok o => .ok ⟨o⟩
  | _ => .error .ConfigValidationError

/-- Modelled from the spec: parse the entries of the `handlers`
dictionary, keeping dictionary order. -/
def parseHandlerEntries :
    List (String × PyVal) → Except ConfigError (List (String × Handler))
  | [] => .ok []
  | (k, v) :: rest =>
    match parseHandler v with
    | .error e => .error e
    | .ok h =>
      match parseHandlerEntries rest with
      | .error e => .error e
      | .ok tail => .ok ((k, h) :: tail)

/-- Modelled from the spec: parse the `handlers` dictionary. -/
def parseHandlers : PyVal → Except ConfigError (List (String × Handler))
  | .dict entries => parseHandlerEntries entries
  | _ => .error .ConfigValidationError

/-- Modelled from the spec: parse the `service_options` record, requiring
its `blog` integer. -/
def parseServiceOptions : PyVal → Except ConfigError ServiceOptions
  | .dict entries =>
    match lookup entries "blog" with
    | none => .error .ConfigValidationError
    | some bv =>
      match parseInt bv with
      | .error e => .error e
      | .ok b => .ok ⟨b⟩
  | _ => .error .ConfigValidationError

/-- Modelled from the spec: the loader. It validates a configuration
record against the schema at load time and fails with the single
`ConfigValidationError` kind when a required field (`service`,
`service_options`, `handlers`) is missing or mistyped. -/
def load : PyVal → Except ConfigError PublishConfig
  | .dict entries =>
    match lookup entries "service" with
    | none => .error .ConfigValidationError
    | some sv =>
      match parseString sv with
      | .error e => .error e
      | .ok s =>
        match lookup entries "service_options" with
        | none => .error .ConfigValidationError
        | some sov =>
          match parseServiceOptions sov with
          | .error e => .error e
          | .ok so =>
            match lookup entries "handlers" with
            | none => .error .ConfigValidationError
            | some hv =>
              match parseHandlers hv with
              | .error e => .error e
              | .ok hs => .ok ⟨s, so, hs⟩
  | _ => .error .ConfigValidationError

/-- Modelled from the spec: serialize one settings list back to the
literal shape, a list of two-element string tuples. -/
def serializePairList (ps : List (String × String)) : PyVal :=
  .list (ps.map (fun p => .tuple [.str p.1, .str p.2]))

/-- Modelled from the spec: serialize the `config` sub-record. -/
def serializeMarkdownConfig (c : MarkdownConfig) : PyVal :=
  .dict [("extensions", .list (c.extensions.map .str)),
         ("extension_configs",
          .dict (c.extension_configs.map (fun p => (p.1, serializePairList p.2))))]

/-- Modelled from the spec: serialize a handler options record, omitting
the `embed_images` key entirely when the flag is unset. -/
def serializeHandlerOptions (o : HandlerOptions) : PyVal :=
  match o.embed_images with
  | some b => .dict [("embed_images", .bool b),
                     ("config", serializeMarkdownConfig o.config)]
  | none => .dict [("config", serializeMarkdownConfig o.config)]

/-- Modelled from the spec: serialize one handler record. -/
def serializeHandler (h : Handler) : PyVal :=
  .dict [("options", serializeHandlerOptions h.options)]

/-- Modelled from the spec: serialize a Publish Configuration record back
to the literal dictionary shape, fields in source order. -/
def serialize (c : PublishConfig) : PyVal :=
  .dict [("service", .str c.service),
         ("service_options", .dict [("blog", .int c.service_options.blog)]),
         ("handlers",
          .dict (c.handlers.map (fun p => (p.1, serializeHandler p.2))))]

/-- Parsing a serialized list of strings recovers the list. -/
theorem parseStrings_map (xs : List String) :
    parseStrings (xs.map PyVal.str) = .ok xs := by
  induction xs with
  | nil => rfl
  | cons x xs ih => simp [parseStrings, parseString, ih]

/-- Parsing serialized name/value pairs recovers the pairs. -/
theorem parsePairs_map (ps : List (String × String)) :
    parsePairs (ps.map (fun p => PyVal.tuple [.str p.1, .str p.2])) = .ok ps := by
  induction ps with
  | nil => rfl
  | cons p ps ih => simp [parsePairs, parsePair, ih]

/-- Parsing a serialized settings list recovers it. -/
theorem parsePairList_round (ps : List (String × String)) :
    parsePairList (serializePairList ps) = .ok ps := by
  simp [serializePairList, parsePairList, parsePairs_map]

/-- Parsing serialized `extension_configs` entries recovers them. -/
theorem parseExtConfigEntries_round
    (ecs : List (String × List (String × String))) :
    parseExtConfigEntries (ecs.map (fun p => (p.1, serializePairList p.2))) =
      .ok ecs := by
  induction ecs with
  | nil => rfl
  | cons p rest ih =>
      simp [parseExtConfigEntries, parsePairList_round, ih]

/-- Parsing a serialized `config` sub-record recovers it. -/
theorem parseMarkdownConfig_round (c : MarkdownConfig) :
    parseMarkdownConfig (serializeMarkdownConfig c) = .ok c := by
  simp [serializeMarkdownConfig, parseMarkdownConfig, lookup, parseStringList,
        parseStrings_map, parseExtensionConfigs, parseExtConfigEntries_round]

/-- Parsing serialized handler options recovers them, in both the set and
the unset `embed_images` cases. -/
theorem parseHandlerOptions_round (o : HandlerOptions) :
    parseHandlerOptions (serializeHandlerOptions o) = .ok o := by
  obtain ⟨ei, cfg⟩ := o
  cases ei <;>
    simp [serializeHandlerOptions, parseHandlerOptions, parseConfigField,
          lookup, parseBool, parseMarkdownConfig_round]

/-- Parsing a serialized handler recovers it. -/
theorem parseHandler_round (h : Handler) :
    parseHandler (serializeHandler h) = .ok h := by
  simp [serializeHandler, parseHandler, lookup, parseHandlerOptions_round]

/-- Parsing serialized `handlers` entries recovers them. -/
theorem parseHandlerEntries_round (hs : List (String × Handler)) :
    parseHandlerEntries (hs.map (fun p => (p.1, serializeHandler p.2))) =
      .ok hs := by
  induction hs with
  | nil => rfl
  | cons p rest ih => simp [parseHandlerEntries, parseHandler_round, ih]

/-- Claim C1: loading the literal record of `src/brc.py` reports
`service == "blogger"` and `service_options.blog == 6425054342484936402`. -/
theorem load_reports_service_and_blog :
    ∃ c, load brcRecord = .ok c ∧ c.service = "blogger" ∧
      c.service_options.blog = 6425054342484936402 :=
  ⟨_, rfl, rfl, rfl⟩

/-- Claim C2: loading the literal record of `src/brc.py` reports the
Markdown handler enabling exactly the extensions `codehilite`,
`footnotes`, `tables`, `toc`, in that order. -/
theorem load_reports_markdown_extensions :
    ∃ c h, load brcRecord = .ok c ∧ lookup c.handlers "Markdown" = some h ∧
      h.options.config.extensions =
        ["codehilite", "footnotes", "tables", "toc"] :=
  ⟨_, _, rfl, rfl, rfl⟩

/-- Claim C3: loading the literal record of `src/brc.py` reports the
Markdown handler with `embed_images == true`. -/
theorem load_reports_embed_images :
    ∃ c h, load brcRecord = .ok c ∧ lookup c.handlers "Markdown" = some h ∧
      h.options.embed_images = some true :=
  ⟨_, _, rfl, rfl, rfl⟩

/-- Claim C4: serializing any valid Publish Configuration record and then
deserializing the result yields the identical record. -/
theorem load_serialize_roundtrip (c : PublishConfig) :
    load (serialize c) = .ok c := by
  obtain ⟨s, ⟨b⟩, hs⟩ := c
  simp [serialize, load, lookup, parseString, parseServiceOptions, parseInt,
        parseHandlers, parseHandlerEntries_round]

/-- A value only parses as a service string when it is a string. -/
theorem parseString_ok (v : PyVal) (s : String) (h : parseString v = .ok s) :
    v = PyVal.str s := by
  cases v <;> simp_all [parseString]

/-- A value only parses as a handlers table when it is a dictionary. -/
theorem parseHandlers_ok (v : PyVal) (hs : List (String × Handler))
    (h : parseHandlers v = .ok hs) : ∃ entries, v = PyVal.dict entries := by
  cases v <;> simp [parseHandlers] at h ⊢

/-- A record that loads successfully has a string-valued `service` key and
a dictionary-valued `handlers` key. -/
theorem load_ok_shape (entries : List (String × PyVal)) (c : PublishConfig)
    (h : load (.dict entries) = .ok c) :
    (∃ s, lookup entries "service" = some (PyVal.str s)) ∧
    (∃ he, lookup entries "handlers" = some (PyVal.dict he)) := by
  simp only [load] at h
  split at h
  · cases h
  next sv hsv =>
    split at h
    · cases h
    next s hps =>
      split at h
      · cases h
      next sov hsov =>
        split at h
        · cases h
        next so hpso =>
          split at h
          · cases h
          next hv hhv =>
            split at h
            · cases h
            next hs2 hph =>
              refine ⟨⟨s, ?_⟩, ?_⟩
              · rw [hsv, parseString_ok sv s hps]
              · obtain ⟨he, rfl⟩ := parseHandlers_ok hv hs2 hph
                exact ⟨he, hhv⟩

/-- A load that cannot succeed fails with the single validation error. -/
theorem load_not_ok (v : PyVal) (h : ∀ c, load v ≠ .ok c) :
    load v = .error ConfigError.ConfigValidationError := by
  cases hl : load v with
  | ok c => exact absurd hl (h c)
  | error e => cases e; rfl

/-- Claim C5: loading fails with `ConfigValidationError` whenever a
required field is missing or mistyped: when the `service` key is missing,
when its value is not a string, when the `handlers` key is missing, or
when its value is not a dictionary; and every load failure carries that
single error kind. -/
theorem load_missing_service_fails :
    (∀ entries : List (String × PyVal),
      (lookup entries "service" = none ∨
       (∃ sv, lookup entries "service" = some sv ∧ ∀ s, sv ≠ PyVal.str s) ∨
       lookup entries "handlers" = none ∨
       (∃ hv, lookup entries "handlers" = some hv ∧
         ∀ he, hv ≠ PyVal.dict he)) →
      load (.dict entries) = .error ConfigError.ConfigValidationError) ∧
    (∀ (v : PyVal) (e : ConfigError), load v = .error e →
      e = ConfigError.ConfigValidationError) := by
  constructor
  · intro entries hbad
    apply load_not_ok
    intro c hok
    obtain ⟨⟨s, hs⟩, ⟨he, hh⟩⟩ := load_ok_shape entries c hok
    rcases hbad with h1 | ⟨sv, hsv, hns⟩ | h3 | ⟨hv, hhv, hnd⟩
    · rw [h1] at hs; cases hs
    · rw [hsv] at hs
      simp only [Option.some.injEq] at hs
      exact hns s hs
    · rw [h3] at hh; cases hh
    · rw [hhv] at hh
      simp only [Option.some.injEq] at hh
      exact hnd he hh
  · intro v e _
    cases e
    rfl

/-- Witness for claim C5: the empty record is missing the `service` key
and fails to load with the validation error. -/
theorem load_missing_service_fails_witness :
    load (.dict []) = .error ConfigError.ConfigValidationError :=
  load_missing_service_fails.1 [] (Or.inl rfl)

/-- Claim C6: loading the first file variant, in which the `embed_images`
key is absent, reports the flag as the distinct unset state, never a
boolean value. -/
theorem load_first_variant_embed_images_unset :
    ∃ c h, load brcRecordV1 = .ok c ∧ lookup c.handlers "Markdown" = some h ∧
      h.options.embed_images = none ∧
      ∀ b : Bool, h.options.embed_images ≠ some b :=
  ⟨_, _, rfl, rfl, rfl, by decide⟩

/-- Claim C7: the record is immutable after load; the loader is a pure
function of the literal, and re-serializing the loaded record reproduces
the original literal record exactly, so every observation yields the
original literal values. -/
theorem loaded_record_matches_literal :
    ∃ c, load brcRecord = .ok c ∧ serialize c = brcRecord :=
  ⟨_, rfl, rfl⟩

/-- Claim C8: every key of `extension_configs` also appears in the
`extensions` list; concretely, `codehilite` is configured and enabled,
while `footnotes`, `tables` and `toc` have no `extension_configs` entry. -/
theorem extension_configs_keys_subset_extensions :
    ∃ c h, load brcRecord = .ok c ∧ lookup c.handlers "Markdown" = some h ∧
      (∀ k ∈ h.options.config.extension_configs.map Prod.fst,
        k ∈ h.options.config.extensions) ∧
      lookup h.options.config.extension_configs "codehilite" =
        some [("noclasses", "True")] ∧
      lookup h.options.config.extension_configs "footnotes" = none ∧
      lookup h.options.config.extension_configs "tables" = none ∧
      lookup h.options.config.extension_configs "toc" = none :=
  ⟨_, _, rfl, rfl, by decide, rfl, rfl, rfl, rfl⟩

/-- Claim C9: the extension settings are stringly typed: there is exactly
one handler key, `Markdown`, and its `extension_configs` maps exactly the
key `codehilite` to the single pair of the name string `noclasses` and the
value string `True`. -/
theorem extension_configs_stringly_typed :
    ∃ c h, load brcRecord = .ok c ∧ c.handlers = [("Markdown", h)] ∧
      h.options.config.extension_configs =
        [("codehilite", [("noclasses", "True")])] :=
  ⟨_, _, rfl, rfl, rfl⟩

/-- Claim C10: the blog identifier is exactly 6425054342484936402, which
lies strictly between 2 ^ 53 and 2 ^ 63. -/
theorem blog_id_range :
    ∃ c, load brcRecord = .ok c ∧
      c.service_options.blog = 6425054342484936402 ∧
      2 ^ 53 < c.service_options.blog ∧ c.service_options.blog < 2 ^ 63 :=
  ⟨_, rfl, rfl, by decide, by decide⟩

end Brc
